import Mathlib

/-!
Verification of the AI-Trading-Bot repository (config.py, risk.py, exchange.py,
ui.py) against its natural-language specification.

The Python source is shallowly embedded in Lean: money amounts, prices and
timestamps are modelled as rationals (the source performs only field
arithmetic on them), exchange-side effects (network calls, the JSON files on
disk) are modelled as explicit oracle records passed into the functions, and
exceptions raised by the exchange client are modelled with `Option` fields of
those oracles (`none` meaning the call raised).  Each embedded definition
carries a comment naming the source function and lines it is translated from.
-/

/-- Trading mode constants, config.py lines 30-31
(TRADING_MODE_SPOT = "spot", TRADING_MODE_SWAP = "swap"). -/
inductive TMode where
  | spot
  | swap
deriving DecidableEq, Repr

/-- The trading-parameter triple persisted by ConfigManager.update_trading_params,
config.py lines 99-110. -/
structure TradingParams where
  symbol : String
  mode : TMode
  leverage : ℤ
deriving DecidableEq, Repr

/-- RiskController construction state, risk.py lines 14-17. -/
structure RiskController where
  max_drawdown : ℚ
  max_single_loss : ℚ
deriving DecidableEq, Repr

/-- RiskController.check_trade_permission, risk.py lines 19-33.
Sells are always allowed; with no positive baseline capital everything is
allowed; otherwise a buy is blocked exactly when the drawdown
(initial - total) / initial strictly exceeds max_drawdown. -/
def check_trade_permission (rc : RiskController)
    (current_total_asset initial_capital : ℚ) (action : String) :
    Bool × String :=
  if action = "sell" then (true, "卖出操作允许")
  else if initial_capital ≤ 0 then (true, "初始状态")
  else
    let drawdown := (initial_capital - current_total_asset) / initial_capital
    if rc.max_drawdown < drawdown then (false, "触发最大回撤限制")
    else (true, "风控通过")

/-- RiskController.calculate_stop_loss, risk.py lines 49-51. -/
def calculate_stop_loss (rc : RiskController) (entry_price : ℚ) : ℚ :=
  entry_price * (1 - rc.max_single_loss)

/-- RealExchange.get_trading_symbol, exchange.py lines 90-104.
The Python membership test `':' in symbol` is embedded as list membership on
the character data, and `symbol.split(':')[0]` as the characters before the
first colon. -/
def get_trading_symbol (symbol : String) (trading_mode : TMode) : String :=
  if trading_mode = TMode.swap then
    if ':' ∈ symbol.data then symbol else symbol ++ ":USDT"
  else
    if ':' ∈ symbol.data then
      String.mk (symbol.data.takeWhile (fun c => c != ':'))
    else symbol

/-- The mutable state of a RealExchange object, exchange.py lines 28-73,
restricted to the fields the verified operations read or write.  The live
ccxt session object is modelled by an opaque numeric session id; the
trading-parameter triple written to secrets.json by
ConfigManager.update_trading_params is modelled by the persisted_params
field. -/
structure ExchState where
  exchange : ℕ
  symbol : String
  trading_mode : TMode
  leverage : ℤ
  is_reconnecting : Bool
  entry_price : ℚ
  peak_balance : ℚ
  initial_capital : ℚ
  position_open_time : Option ℚ
  last_trade_time : ℚ
  persisted_params : TradingParams
deriving DecidableEq, Repr

/-- Message returned by RealExchange.reconnect when a swap is already in
flight, exchange.py line 118 (the swap-in-progress rejection). -/
def swap_in_progress_msg : String := "重连进行中，请稍候"

/-- Failure message of RealExchange.reconnect, exchange.py line 163; the
source appends the exception text, elided here. -/
def swap_failed_msg : String := "切换失败"

/-- Oracle for the fallible exchange-side steps of one reconnect attempt,
exchange.py lines 139-151.  new_session is the instance built by
_create_exchange_instance; load_markets_ok and fetch_balance_ok model whether
the corresponding client calls raise; persist_ok models whether
ConfigManager.update_trading_params manages to write secrets.json (that
helper catches its own exceptions and merely returns a boolean, config.py
lines 99-110).  _set_leverage swallows its own exceptions (exchange.py lines
175-183) and therefore is not a failure point of the swap. -/
structure SwapEnv where
  new_session : ℕ
  load_markets_ok : Bool
  fetch_balance_ok : Bool
  persist_ok : Bool
deriving DecidableEq, Repr

/-- RealExchange.reconnect, exchange.py lines 106-168.  A call that finds the
is_reconnecting flag set returns immediately; otherwise the flag is held for
the duration of the attempt and cleared by the finally block on every exit.
On an exception the snapshot {exchange, symbol, trading_mode, leverage} is
restored.  On success the result of the persistence helper is ignored. -/
def reconnect (st : ExchState) (env : SwapEnv) (new_symbol : String)
    (new_mode : TMode) (new_leverage : ℤ) : (Bool × String) × ExchState :=
  if st.is_reconnecting then ((false, swap_in_progress_msg), st)
  else
    let attempt : ExchState :=
      { st with exchange := env.new_session, symbol := new_symbol,
                trading_mode := new_mode, leverage := new_leverage,
                is_reconnecting := true }
    if env.load_markets_ok = false ∨ env.fetch_balance_ok = false then
      ((false, swap_failed_msg), { st with is_reconnecting := false })
    else
      let committed : ExchState :=
        if env.persist_ok then
          { attempt with
              persisted_params := ⟨new_symbol, new_mode, new_leverage⟩,
              is_reconnecting := false }
        else { attempt with is_reconnecting := false }
      ((true, "切换成功: " ++ new_symbol), committed)

/-- RealExchange.set_initial_capital, exchange.py lines 249-257.  Assigns the
capital only while the stored value is non-positive, and then also seeds
peak_balance when that is non-positive. -/
def set_initial_capital (st : ExchState) (capital : ℚ) : ExchState :=
  if st.initial_capital ≤ 0 then
    if st.peak_balance ≤ 0 then
      { st with initial_capital := capital, peak_balance := capital }
    else { st with initial_capital := capital }
  else st

/-- RealExchange.update_peak_balance, exchange.py lines 472-485.  Raises
peak_balance to the current total asset value, but only while the position is
flat (at most 0.0001 = 1/10000 base units). -/
def update_peak_balance (st : ExchState)
    (current_total_asset current_position : ℚ) : ExchState :=
  if current_position ≤ 1/10000 then
    if st.peak_balance < current_total_asset then
      { st with peak_balance := current_total_asset }
    else st
  else st

/-- The initial-capital calibration step of the market poller,
ui.py lines 926-930: when the price is positive, the cached balance is
non-negative and no initial capital is set, the poller computes the total
asset value and, when that is positive, passes it to set_initial_capital.
Note that no flat-position condition is checked on this path. -/
def initial_capital_calibration (st : ExchState)
    (balance position price : ℚ) : ExchState :=
  if 0 < price ∧ 0 ≤ balance ∧ st.initial_capital ≤ 0 then
    if 0 < balance + position * price then
      set_initial_capital st (balance + position * price)
    else st
  else st

/-- The operations that can touch peak_balance or initial_capital after
startup: a peak update from the account sync (ui.py line 381), a direct
set_initial_capital call, and the market-poller calibration step. -/
inductive CapOp where
  | updPeak (total position : ℚ)
  | setCap (capital : ℚ)
  | calibrate (balance position price : ℚ)

/-- Apply one CapOp to the exchange state. -/
def applyCapOp (st : ExchState) : CapOp → ExchState
  | .updPeak t p => update_peak_balance st t p
  | .setCap c => set_initial_capital st c
  | .calibrate b p pr => initial_capital_calibration st b p pr

/-- Capital arguments that the CapOp sequence theorems assume non-negative:
only a raw set_initial_capital call needs the restriction, since the
calibration path checks positivity of the total itself. -/
def capOpNonneg : CapOp → Prop
  | .setCap c => 0 ≤ c
  | _ => True

/-- Sample exchange state: fresh spot-mode connection on BTC/USDT. -/
def st0 : ExchState :=
  { exchange := 1, symbol := "BTC/USDT", trading_mode := TMode.spot,
    leverage := 1, is_reconnecting := false, entry_price := 0,
    peak_balance := 0, initial_capital := 0, position_open_time := none,
    last_trade_time := 0, persisted_params := ⟨"BTC/USDT", TMode.spot, 1⟩ }

/-- Sample exchange state with a swap already in flight. -/
def st_busy : ExchState := { st0 with is_reconnecting := true }

/-- Sample swap oracle: every exchange call succeeds but the persistence of
the new parameters to secrets.json fails. -/
def envPersistFail : SwapEnv :=
  { new_session := 2, load_markets_ok := true, fetch_balance_ok := true,
    persist_ok := false }

/-- Sample swap oracle: everything succeeds. -/
def envAllOk : SwapEnv :=
  { new_session := 2, load_markets_ok := true, fetch_balance_ok := true,
    persist_ok := true }

/-- Sample swap oracle: the load_markets call raises. -/
def envLoadFail : SwapEnv :=
  { new_session := 2, load_markets_ok := false, fetch_balance_ok := true,
    persist_ok := true }

/-- Sample exchange state with a locked-in initial capital. -/
def st_pos : ExchState :=
  { st0 with initial_capital := 1000, peak_balance := 1000 }

/-- SLIPPAGE_TOLERANCE = 0.005, config.py line 20. -/
def SLIPPAGE_TOLERANCE : ℚ := 5/1000

/-- COOLING_OFF_MINUTES = 30, config.py line 21. -/
def COOLING_OFF_MINUTES : ℚ := 30

/-- Python int() applied to a rational: truncation toward zero.  On the
non-negative arguments arising from quantities and prices it coincides with
the floor, which contract_sizing_reject proves. -/
def pyInt (q : ℚ) : ℤ := if 0 ≤ q then ⌊q⌋ else -⌊-q⌋

/-- Oracle for the exchange-side calls of the two order-placement methods,
exchange.py lines 305-470: the contractSize of the market metadata, the last
ticker price (used by place_market_order), the two precision-rounding
helpers, and the outcome of create_order (none models the call raising). -/
structure OrderEnv where
  contract_size : ℚ
  ticker_last : ℚ
  price_to_precision : ℚ → ℚ
  amount_to_precision : ℚ → ℚ
  create_order : Option String

/-- The create_order call and cached-state bookkeeping tail of
place_limit_order_with_stop, exchange.py lines 378-400: a successful buy
caches the limit price and the open time; a successful sell with positive
amount clears them and records the trade time; any exception yields None
with the cached state untouched (the mutations all sit after create_order). -/
def submit_and_record (st : ExchState) (env : OrderEnv) (side : String)
    (amount price : ℚ) (now : ℚ) : Option String × ExchState :=
  match env.create_order with
  | none => (none, st)
  | some order_id =>
    if side = "buy" then
      (some order_id,
       { st with entry_price := price, position_open_time := some now })
    else if side = "sell" then
      if 0 < amount then
        (some order_id,
         { st with entry_price := 0, position_open_time := none,
                   last_trade_time := now })
      else (some order_id, st)
    else (some order_id, st)

/-- RealExchange.place_limit_order_with_stop, exchange.py lines 305-407.
In swap mode the coin quantity is converted to a contract count with
int(quantity * price / contractSize) and the order is aborted with None when
that count is not positive; the stop-loss price only shapes the request
parameters sent to the exchange and has no effect on cached state. -/
def place_limit_order_with_stop (st : ExchState) (env : OrderEnv)
    (side : String) (quantity current_market_price : ℚ)
    (stop_loss_price : Option ℚ) (now : ℚ) : Option String × ExchState :=
  let price_raw :=
    if side = "buy" then current_market_price * (1 + SLIPPAGE_TOLERANCE)
    else current_market_price * (1 - SLIPPAGE_TOLERANCE)
  if st.trading_mode = TMode.swap then
    if pyInt (quantity * current_market_price / env.contract_size) ≤ 0 then
      (none, st)
    else
      submit_and_record st env side
        ((pyInt (quantity * current_market_price / env.contract_size) : ℚ))
        (env.price_to_precision price_raw) now
  else
    submit_and_record st env side (env.amount_to_precision quantity)
      (env.price_to_precision price_raw) now

/-- The create_order call and bookkeeping tail of place_market_order,
exchange.py lines 446-463 (a sell clears the cached entry data
unconditionally here). -/
def market_submit (st : ExchState) (env : OrderEnv) (side : String)
    (now : ℚ) : Option String × ExchState :=
  match env.create_order with
  | none => (none, st)
  | some order_id =>
    if side = "sell" then
      (some order_id,
       { st with entry_price := 0, position_open_time := none,
                 last_trade_time := now })
    else (some order_id, st)

/-- RealExchange.place_market_order, exchange.py lines 409-470.  Same
contract-count conversion as the limit path, against the fetched ticker
price. -/
def place_market_order (st : ExchState) (env : OrderEnv) (side : String)
    (quantity : ℚ) (now : ℚ) : Option String × ExchState :=
  if st.trading_mode = TMode.swap then
    if pyInt (quantity * env.ticker_last / env.contract_size) ≤ 0 then
      (none, st)
    else market_submit st env side now
  else market_submit st env side now

/-- Sample exchange state in swap mode. -/
def st_swap : ExchState :=
  { st0 with trading_mode := TMode.swap, leverage := 2,
             persisted_params := ⟨"BTC/USDT", TMode.swap, 2⟩ }

/-- Sample order oracle with a 100 USD contract notional size. -/
def env_c6 : OrderEnv :=
  { contract_size := 100, ticker_last := 60000,
    price_to_precision := fun q => q, amount_to_precision := fun q => q,
    create_order := some "order1" }

/-- The indicator triple consumed by the decision loop, ui.py (trend score,
RSI, MACD). -/
structure Indicators where
  trend_score : ℚ
  rsi : ℚ
  macd : ℚ
deriving DecidableEq, Repr

/-- The CryptoAIExpert fields read by the decision and execution paths,
ui.py lines 340-398 and 1052-1142. -/
structure UiState where
  balance : ℚ
  position : ℚ
  current_price : ℚ
  entry_price : ℚ
  initial_capital : ℚ
  last_sell_ts : ℚ
  position_open_time : Option ℚ
  trading_mode : TMode
  leverage : ℚ
deriving DecidableEq, Repr

/-- CryptoAIExpert.can_make_decision, ui.py lines 387-398: price known,
outside the cooling-off window, total asset above the dust floor. -/
def can_make_decision (st : UiState) (now : ℚ) : Bool :=
  if st.current_price ≤ 0 then false
  else if now - st.last_sell_ts < COOLING_OFF_MINUTES * 60 then false
  else if st.balance + st.position * st.current_price < 10 then false
  else true

/-- CryptoAIExpert.should_sell, ui.py lines 1052-1071: no-op without a
position; sell when the advisory says sell, when the position has been held
at least 12 hours, or when trend score < 25 with negative MACD. -/
def should_sell (st : UiState) (now : ℚ) (indicators : Indicators)
    (ai_action : String) : Bool × String :=
  if st.position ≤ 1/10000 then (false, "无持仓")
  else if ai_action = "sell" then (true, "AI建议卖出")
  else
    match st.position_open_time with
    | some t =>
      if 12 ≤ (now - t) / 3600 then (true, "时间止损")
      else if indicators.trend_score < 25 ∧ indicators.macd < 0 then
        (true, "趋势崩坏")
      else (false, "持有")
    | none =>
      if indicators.trend_score < 25 ∧ indicators.macd < 0 then
        (true, "趋势崩坏")
      else (false, "持有")

/-- The order attempt that one execute_trade call hands to the exchange
layer, abstracting the order id and the subsequent resync. -/
inductive TradeEffect where
  | noOrder
  | sellOrder (quantity price : ℚ)
  | buyOrder (quantity price stop_loss : ℚ)
deriving DecidableEq, Repr

/-- CryptoAIExpert.execute_trade, ui.py lines 1073-1142: risk gate first,
then the sell policy (which may liquidate an open position whatever the
advisory action was), then the buy path with its balance floor, cooling-off
window, held-position bound, and the [0.2, 0.95] clamp of the suggested
ratio applied to balance (times leverage in swap mode). -/
def execute_trade (rc : RiskController) (st : UiState) (now : ℚ)
    (action : String) (indicators : Indicators) (ai_position : ℚ) :
    TradeEffect :=
  if (check_trade_permission rc (st.balance + st.position * st.current_price)
        st.initial_capital action).1 = false then .noOrder
  else if (should_sell st now indicators action).1 = true
      ∧ 1/10000 < st.position then
    .sellOrder st.position st.current_price
  else if action = "buy" ∧ 10 < st.balance then
    if now - st.last_sell_ts < COOLING_OFF_MINUTES * 60 then .noOrder
    else if 10 < st.position * st.current_price then .noOrder
    else
      .buyOrder
        ((if st.trading_mode = TMode.swap then st.balance * st.leverage
          else st.balance)
            * max (2/10) (min (95/100) (ai_position / 100))
            / st.current_price)
        st.current_price
        (calculate_stop_loss rc st.current_price)
  else .noOrder

/-- The risk limits used at runtime: max_drawdown 0.15 (config default),
max_single_loss 0.05 (constructor default). -/
def rc0 : RiskController := ⟨15/100, 5/100⟩

/-- Indicator sample: healthy trend, positive MACD (no breakdown stop). -/
def ind_hold : Indicators := ⟨40, 50, 1⟩

/-- Decision-loop state sample: small free balance, one base unit held since
timestamp 0, spot mode. -/
def ui_c9 : UiState :=
  { balance := 5, position := 1, current_price := 100, entry_price := 90,
    initial_capital := 0, last_sell_ts := 0, position_open_time := some 0,
    trading_mode := TMode.spot, leverage := 1 }

/-- Decision-loop state sample with a comfortable balance. -/
def ui_c8 : UiState := { ui_c9 with balance := 200 }

/-- One entry of the fetch_positions response, exchange.py lines 272-279. -/
structure PosInfo where
  symbol : String
  contracts : ℚ
  contractSize : ℚ
deriving DecidableEq, Repr

/-- The account dictionary returned by RealExchange.get_account,
exchange.py lines 286-303. -/
structure Snapshot where
  balance : ℚ
  position : ℚ
  entry_price : ℚ
  peak_balance : ℚ
  initial_capital : ℚ
  position_open_time : Option ℚ
  last_trade_time : ℚ
deriving DecidableEq, Repr

/-- Oracle for the exchange queries inside get_account; in both fields none
models the client call raising.  fetch_balance maps a coin name to its
(free, total) amounts. -/
structure AcctEnv where
  fetch_balance : Option (String → ℚ × ℚ)
  fetch_positions : Option (List PosInfo)

/-- The all-zero dictionary of the get_account exception handlers,
exchange.py lines 296-298 and 301-303. -/
def zero_snapshot : Snapshot :=
  { balance := 0, position := 0, entry_price := 0, peak_balance := 0,
    initial_capital := 0, position_open_time := none, last_trade_time := 0 }

/-- The base and quote coins of a symbol: symbol.split('/')[0] and
symbol.split('/')[1], exchange.py lines 264-265.  A missing quote part
(second component none) corresponds to the IndexError the source would raise
into its outer handler. -/
def coin_parts (symbol : String) : String × Option String :=
  match symbol.data.dropWhile (fun c => c != '/') with
  | [] => (String.mk (symbol.data.takeWhile (fun c => c != '/')), none)
  | _ :: tail =>
    (String.mk (symbol.data.takeWhile (fun c => c != '/')),
     some (String.mk (tail.takeWhile (fun c => c != '/'))))

/-- RealExchange.get_account, exchange.py lines 259-303.  Any exception
reaching the outer handlers (fetch_balance raising, or a malformed symbol)
returns the all-zero dictionary; an exception inside the fetch_positions
block is swallowed by the inner handler (lines 280-282) and only zeroes the
position; the cached fields are passed through from the object state, which
the method never mutates. -/
def get_account (st : ExchState) (env : AcctEnv) : Snapshot :=
  match env.fetch_balance with
  | none => zero_snapshot
  | some balance_info =>
    match (coin_parts st.symbol).2 with
    | none => zero_snapshot
    | some quote_coin =>
      { balance := (balance_info quote_coin).1,
        position :=
          if st.trading_mode = TMode.swap then
            match env.fetch_positions with
            | none => 0
            | some positions =>
              match positions.find? (fun pos =>
                  pos.symbol == get_trading_symbol st.symbol st.trading_mode) with
              | some pos => pos.contracts * pos.contractSize
              | none => 0
          else (balance_info (coin_parts st.symbol).1).2,
        entry_price := st.entry_price,
        peak_balance := st.peak_balance,
        initial_capital := st.initial_capital,
        position_open_time := st.position_open_time,
        last_trade_time := st.last_trade_time }

/-- Exchange state sample with cached non-zero account data, swap mode. -/
def st_c10 : ExchState :=
  { exchange := 1, symbol := "BTC/USDT", trading_mode := TMode.swap,
    leverage := 2, is_reconnecting := false, entry_price := 7,
    peak_balance := 900, initial_capital := 500, position_open_time := some 0,
    last_trade_time := 3, persisted_params := ⟨"BTC/USDT", TMode.swap, 2⟩ }

/-- Account oracle sample: balance query succeeds, positions query raises. -/
def env_c10 : AcctEnv :=
  { fetch_balance := some (fun _ => (100, 2)), fetch_positions := none }

/-- Account oracle sample: the balance query itself raises. -/
def env_net_down : AcctEnv := { fetch_balance := none, fetch_positions := none }

/-- Characters before the first colon of a colon-free prefix: helper fact for
the spot-mode suffix stripping. -/
theorem takeWhile_append_colon (l₁ l₂ : List Char) (h : ':' ∉ l₁) :
    (l₁ ++ ':' :: l₂).takeWhile (fun c => c != ':') = l₁ := by
  induction l₁ with
  | nil => simp [List.takeWhile]
  | cons a t ih =>
    have ha : a ≠ ':' := fun hc => h (hc ▸ List.mem_cons_self a t)
    have ht : ':' ∉ t := fun hm => h (List.mem_cons_of_mem a hm)
    have hbne : (a != ':') = true := bne_iff_ne.mpr ha
    simp [List.takeWhile, hbne, ih ht]

/-- C7: get_trading_symbol is a pure function of symbol and mode.  In swap
mode it appends ":USDT" when no colon is present and returns the symbol
unchanged otherwise; in spot mode it strips any colon suffix (returning the
part before the first colon) and returns a colon-free symbol unchanged.  In
particular ("BTC/USDT", swap) maps to "BTC/USDT:USDT" and
("BTC/USDT:USDT", spot) maps to "BTC/USDT". -/
theorem trading_symbol_spec :
    (∀ s : String, ':' ∉ s.data → get_trading_symbol s TMode.swap = s ++ ":USDT")
    ∧ (∀ s : String, ':' ∈ s.data → get_trading_symbol s TMode.swap = s)
    ∧ (∀ s : String, ':' ∉ s.data → get_trading_symbol s TMode.spot = s)
    ∧ (∀ base sfx : String, ':' ∉ base.data →
        get_trading_symbol (base ++ String.mk (':' :: sfx.data)) TMode.spot = base)
    ∧ get_trading_symbol "BTC/USDT" TMode.swap = "BTC/USDT:USDT"
    ∧ get_trading_symbol "BTC/USDT:USDT" TMode.spot = "BTC/USDT" := by
  refine ⟨?_, ?_, ?_, ?_, by decide, by decide⟩
  · intro s hs
    simp [get_trading_symbol, hs]
  · intro s hs
    simp [get_trading_symbol, hs]
  · intro s hs
    simp [get_trading_symbol, hs]
  · intro base sfx hb
    have hdata : (base ++ String.mk (':' :: sfx.data)).data
        = base.data ++ ':' :: sfx.data := rfl
    have hmem : ':' ∈ base.data ++ ':' :: sfx.data :=
      List.mem_append_right _ (List.mem_cons_self _ _)
    simp only [get_trading_symbol, if_neg (by decide : ¬ TMode.spot = TMode.swap),
      hdata, if_pos hmem, takeWhile_append_colon base.data sfx.data hb]

/-- C7 witness: the theorem applied at concrete symbols. -/
theorem trading_symbol_spec_witness :
    get_trading_symbol "ETH/USDT" TMode.swap = "ETH/USDT:USDT"
    ∧ get_trading_symbol "SOL/USDT:USDT" TMode.spot = "SOL/USDT" := by
  refine ⟨trading_symbol_spec.1 "ETH/USDT" (by decide), ?_⟩
  have h := trading_symbol_spec.2.2.2.1 "SOL/USDT" "USDT" (by decide)
  exact h

/-- C3: check_trade_permission allows every sell; a buy is denied exactly when
a positive baseline capital exists and the drawdown (initial - total)/initial
strictly exceeds max_drawdown.  With initial = 1000, total = 840 and
max_drawdown = 0.15 = 15/100 the drawdown is 0.16, so buy is blocked and sell
is allowed. -/
theorem check_trade_permission_spec :
    (∀ (rc : RiskController) (total initial : ℚ),
        (check_trade_permission rc total initial "sell").1 = true)
    ∧ (∀ (rc : RiskController) (total initial : ℚ),
        (check_trade_permission rc total initial "buy").1 = false
          ↔ 0 < initial ∧ rc.max_drawdown < (initial - total) / initial)
    ∧ (check_trade_permission ⟨15/100, 5/100⟩ 840 1000 "buy").1 = false
    ∧ (check_trade_permission ⟨15/100, 5/100⟩ 840 1000 "sell").1 = true := by
  have hbs : ¬ ("buy" : String) = "sell" := by decide
  refine ⟨?_, ?_, by norm_num [check_trade_permission, hbs],
    by norm_num [check_trade_permission]⟩
  · intro rc total initial
    simp [check_trade_permission]
  · intro rc total initial
    simp only [check_trade_permission, if_neg (by decide : ¬ "buy" = "sell")]
    by_cases h0 : initial ≤ 0
    · simp [h0, not_lt.mpr h0]
    · have h0' : 0 < initial := lt_of_not_le h0
      by_cases hd : rc.max_drawdown < (initial - total) / initial
      · simp [h0, hd, h0']
      · simp [h0, hd, h0']

/-- Equality of an exchange state with its flag-cleared copy when the flag is
already clear. -/
theorem setflag_false_eq (st : ExchState) (h : st.is_reconnecting = false) :
    { st with is_reconnecting := false } = st := by
  cases st with
  | mk ex sy tm lv ir ep pb ic pot ltt pp => simp_all

/-- C2: a reconnect call that finds the swap-exclusivity flag set returns
immediately with ok = false and the swap-in-progress message, leaving the
whole state (session, symbol, mode, leverage, everything) untouched; and a
call that proceeds ends with the flag cleared on every exit path, success or
failure. -/
theorem reconnect_single_flight (st : ExchState) (env : SwapEnv)
    (s : String) (m : TMode) (l : ℤ) :
    (st.is_reconnecting = true →
        reconnect st env s m l = ((false, swap_in_progress_msg), st))
    ∧ (st.is_reconnecting = false →
        (reconnect st env s m l).2.is_reconnecting = false) := by
  constructor
  · intro h
    simp [reconnect, h]
  · intro h
    simp only [reconnect, h]
    by_cases h1 : env.load_markets_ok = false ∨ env.fetch_balance_ok = false
    · simp [h1]
    · cases hp : env.persist_ok <;> simp [h1, hp]

/-- C2 witness: the theorem applied to a busy state and to an idle state. -/
theorem reconnect_single_flight_witness :
    reconnect st_busy envAllOk "ETH/USDT" TMode.swap 3
        = ((false, swap_in_progress_msg), st_busy)
    ∧ (reconnect st0 envAllOk "ETH/USDT" TMode.swap 3).2.is_reconnecting
        = false :=
  ⟨(reconnect_single_flight st_busy envAllOk "ETH/USDT" TMode.swap 3).1 rfl,
   (reconnect_single_flight st0 envAllOk "ETH/USDT" TMode.swap 3).2 rfl⟩

/-- C1 counterexample: a hot-swap attempt whose persistence stage fails still
returns ok = true and commits the new session parameters in memory while the
persisted parameters keep their old value, so the attempt neither rolled
everything back nor committed all of {session, trading parameters, persisted
parameters} together. -/
theorem reconnect_partial_persist_counterexample :
    (reconnect st0 envPersistFail "ETH/USDT" TMode.swap 3).1.1 = true
    ∧ (reconnect st0 envPersistFail "ETH/USDT" TMode.swap 3).2.symbol
        = "ETH/USDT"
    ∧ (reconnect st0 envPersistFail "ETH/USDT" TMode.swap 3).2.trading_mode
        = TMode.swap
    ∧ (reconnect st0 envPersistFail "ETH/USDT" TMode.swap 3).2.leverage = 3
    ∧ (reconnect st0 envPersistFail "ETH/USDT" TMode.swap 3).2.persisted_params
        = TradingParams.mk "BTC/USDT" TMode.spot 1
    ∧ TradingParams.mk "BTC/USDT" TMode.spot 1
        ≠ TradingParams.mk "ETH/USDT" TMode.swap 3 := by
  refine ⟨rfl, rfl, rfl, rfl, rfl, by decide⟩

/-- C1 (amended): a reconnect attempt in which an exchange-side step
(load_markets or the verification fetch_balance) raises returns ok = false
and leaves the entire state, including session, symbol, mode, leverage and
the persisted parameters, exactly as before the attempt; an attempt in which
those steps succeed returns ok = true and commits session and in-memory
trading parameters together, while the persisted parameters are updated only
when the persistence helper succeeds - its failure is ignored, so the
persisted copy can lag a committed swap. -/
theorem reconnect_rollback_amended (st : ExchState) (env : SwapEnv)
    (s : String) (m : TMode) (l : ℤ) (h : st.is_reconnecting = false) :
    ((env.load_markets_ok = false ∨ env.fetch_balance_ok = false) →
        reconnect st env s m l = ((false, swap_failed_msg), st))
    ∧ (env.load_markets_ok = true → env.fetch_balance_ok = true →
        (reconnect st env s m l).1.1 = true
        ∧ (reconnect st env s m l).2.exchange = env.new_session
        ∧ (reconnect st env s m l).2.symbol = s
        ∧ (reconnect st env s m l).2.trading_mode = m
        ∧ (reconnect st env s m l).2.leverage = l
        ∧ (reconnect st env s m l).2.is_reconnecting = false
        ∧ (reconnect st env s m l).2.entry_price = st.entry_price
        ∧ (reconnect st env s m l).2.peak_balance = st.peak_balance
        ∧ (reconnect st env s m l).2.initial_capital = st.initial_capital
        ∧ (env.persist_ok = true →
            (reconnect st env s m l).2.persisted_params = ⟨s, m, l⟩)
        ∧ (env.persist_ok = false →
            (reconnect st env s m l).2.persisted_params
              = st.persisted_params)) := by
  have hst := setflag_false_eq st h
  constructor
  · intro hf
    simp [reconnect, h, hf, hst]
  · intro h1 h2
    simp only [reconnect, h, h1, h2]
    cases hp : env.persist_ok <;> simp [hp]

/-- C1 witness: the amended theorem applied to a failing and to a fully
successful swap attempt on concrete states. -/
theorem reconnect_rollback_amended_witness :
    reconnect st0 envLoadFail "ETH/USDT" TMode.swap 3
        = ((false, swap_failed_msg), st0)
    ∧ (reconnect st0 envAllOk "ETH/USDT" TMode.swap 3).2.persisted_params
        = TradingParams.mk "ETH/USDT" TMode.swap 3 :=
  ⟨(reconnect_rollback_amended st0 envLoadFail "ETH/USDT" TMode.swap 3
      rfl).1 (Or.inl rfl),
   ((reconnect_rollback_amended st0 envAllOk "ETH/USDT" TMode.swap 3
      rfl).2 rfl rfl).2.2.2.2.2.2.2.2.2.1 rfl⟩

/-- set_initial_capital is the identity once the capital is positive. -/
theorem set_initial_capital_pos (st : ExchState)
    (h : 0 < st.initial_capital) (c : ℚ) : set_initial_capital st c = st := by
  simp [set_initial_capital, not_le.mpr h]

/-- The poller calibration step is the identity once the capital is
positive. -/
theorem initial_capital_calibration_pos (st : ExchState)
    (h : 0 < st.initial_capital) (b p pr : ℚ) :
    initial_capital_calibration st b p pr = st := by
  have hc : ¬ (0 < pr ∧ 0 ≤ b ∧ st.initial_capital ≤ 0) := by
    rintro ⟨-, -, h3⟩
    exact absurd h3 (not_le.mpr h)
  simp [initial_capital_calibration, hc]

/-- update_peak_balance never touches initial_capital. -/
theorem update_peak_balance_initial (st : ExchState) (t p : ℚ) :
    (update_peak_balance st t p).initial_capital = st.initial_capital := by
  unfold update_peak_balance
  split_ifs <;> rfl

/-- No CapOp changes a positive initial_capital. -/
theorem applyCapOp_initial_pos (st : ExchState)
    (h : 0 < st.initial_capital) :
    ∀ op : CapOp, (applyCapOp st op).initial_capital = st.initial_capital
  | .updPeak t p => update_peak_balance_initial st t p
  | .setCap c => by
      show (set_initial_capital st c).initial_capital = st.initial_capital
      rw [set_initial_capital_pos st h]
  | .calibrate b p pr => by
      show (initial_capital_calibration st b p pr).initial_capital
          = st.initial_capital
      rw [initial_capital_calibration_pos st h]

/-- A positive initial_capital survives any CapOp sequence. -/
theorem foldl_applyCapOp_initial (ops : List CapOp) :
    ∀ st : ExchState, 0 < st.initial_capital →
      (ops.foldl applyCapOp st).initial_capital = st.initial_capital := by
  induction ops with
  | nil => intro st _; rfl
  | cons op ops ih =>
    intro st h
    have h1 : (applyCapOp st op).initial_capital = st.initial_capital :=
      applyCapOp_initial_pos st h op
    have h2 : 0 < (applyCapOp st op).initial_capital := h1 ▸ h
    rw [List.foldl_cons, ih (applyCapOp st op) h2, h1]

/-- C4: initial capital is set-once.  set_initial_capital leaves a state with
positive initial_capital entirely unchanged, and across any sequence of
capital-touching operations (peak updates, direct set_initial_capital calls
with arbitrary arguments, poller calibration steps with arbitrary arguments)
a positive initial_capital keeps its value. -/
theorem initial_capital_set_once (st : ExchState)
    (h : 0 < st.initial_capital) :
    (∀ c, set_initial_capital st c = st)
    ∧ ∀ ops : List CapOp,
        (ops.foldl applyCapOp st).initial_capital = st.initial_capital :=
  ⟨fun c => set_initial_capital_pos st h c,
   fun ops => foldl_applyCapOp_initial ops st h⟩

/-- C4 witness: the theorem applied to a concrete locked-in state and a
concrete operation sequence. -/
theorem initial_capital_set_once_witness :
    set_initial_capital st_pos 5 = st_pos
    ∧ ([CapOp.setCap 5, CapOp.updPeak 2000 0,
        CapOp.calibrate 10 0 7].foldl applyCapOp st_pos).initial_capital
        = st_pos.initial_capital :=
  ⟨(initial_capital_set_once st_pos (by norm_num [st_pos, st0])).1 5,
   (initial_capital_set_once st_pos (by norm_num [st_pos, st0])).2 _⟩

/-- C5 counterexample: the poller calibration step, run while the position is
1 base unit (far above the 1/10000 flatness bound), raises peak_balance from
0 to 150, so peak_balance updates are not restricted to flat positions. -/
theorem peak_update_nonflat_counterexample :
    (initial_capital_calibration st0 50 1 100).peak_balance = 150
    ∧ st0.peak_balance = 0
    ∧ ¬ ((1 : ℚ) ≤ 1/10000) := by
  refine ⟨?_, rfl, by norm_num⟩
  norm_num [initial_capital_calibration, set_initial_capital, st0]

/-- update_peak_balance never lowers the peak. -/
theorem update_peak_balance_peak_le (st : ExchState) (t p : ℚ) :
    st.peak_balance ≤ (update_peak_balance st t p).peak_balance := by
  unfold update_peak_balance
  split_ifs with h1 h2
  · exact le_of_lt h2
  · exact le_refl _
  · exact le_refl _

/-- update_peak_balance is the identity while the position is not flat. -/
theorem update_peak_balance_nonflat (st : ExchState) (t p : ℚ)
    (h : 1/10000 < p) : update_peak_balance st t p = st := by
  unfold update_peak_balance
  rw [if_neg (not_le.mpr h)]

/-- set_initial_capital with a non-negative capital never lowers the peak. -/
theorem set_initial_capital_peak_le (st : ExchState) (c : ℚ) (h : 0 ≤ c) :
    st.peak_balance ≤ (set_initial_capital st c).peak_balance := by
  unfold set_initial_capital
  split_ifs with h1 h2
  · exact le_trans h2 h
  · exact le_refl _
  · exact le_refl _

/-- The calibration step never lowers the peak (its capital argument is a
total it has itself checked positive). -/
theorem initial_capital_calibration_peak_le (st : ExchState) (b p pr : ℚ) :
    st.peak_balance ≤ (initial_capital_calibration st b p pr).peak_balance := by
  unfold initial_capital_calibration
  split_ifs with h1 h2
  · exact set_initial_capital_peak_le st _ (le_of_lt h2)
  · exact le_refl _
  · exact le_refl _

/-- A single CapOp with a non-negative capital argument never lowers the
peak. -/
theorem applyCapOp_peak_le (st : ExchState) (op : CapOp)
    (hn : capOpNonneg op) :
    st.peak_balance ≤ (applyCapOp st op).peak_balance := by
  cases op with
  | updPeak t p => exact update_peak_balance_peak_le st t p
  | setCap c => exact set_initial_capital_peak_le st c hn
  | calibrate b p pr => exact initial_capital_calibration_peak_le st b p pr

/-- The peak is monotone along any CapOp sequence with non-negative capital
arguments. -/
theorem foldl_applyCapOp_peak_le (ops : List CapOp) :
    ∀ st : ExchState, (∀ op ∈ ops, capOpNonneg op) →
      st.peak_balance ≤ (ops.foldl applyCapOp st).peak_balance := by
  induction ops with
  | nil => intro st _; exact le_refl _
  | cons op ops ih =>
    intro st hall
    have h1 := applyCapOp_peak_le st op (hall op (List.mem_cons_self op ops))
    have h2 := ih (applyCapOp st op)
      (fun o ho => hall o (List.mem_cons_of_mem op ho))
    rw [List.foldl_cons]
    exact le_trans h1 h2

/-- C5 (amended): peak_balance never decreases under update_peak_balance, nor
across any sequence of peak updates, calibration steps and set_initial_capital
calls with non-negative capital; update_peak_balance itself changes nothing
unless the position is flat (at most 1/10000), but the initial-capital
calibration path can additionally raise a non-positive peak_balance while a
position is open. -/
theorem peak_monotone_amended (st : ExchState) :
    (∀ t p, st.peak_balance ≤ (update_peak_balance st t p).peak_balance)
    ∧ (∀ t p, 1/10000 < p → update_peak_balance st t p = st)
    ∧ (∀ c, 0 ≤ c →
        st.peak_balance ≤ (set_initial_capital st c).peak_balance)
    ∧ (∀ ops : List CapOp, (∀ op ∈ ops, capOpNonneg op) →
        st.peak_balance ≤ (ops.foldl applyCapOp st).peak_balance) :=
  ⟨fun t p => update_peak_balance_peak_le st t p,
   fun t p h => update_peak_balance_nonflat st t p h,
   fun c h => set_initial_capital_peak_le st c h,
   fun ops h => foldl_applyCapOp_peak_le ops st h⟩

/-- C5 witness: the amended theorem applied to a concrete state, a concrete
non-flat update and a concrete operation sequence. -/
theorem peak_monotone_amended_witness :
    update_peak_balance st_pos 5000 1 = st_pos
    ∧ st_pos.peak_balance
        ≤ ([CapOp.updPeak 1200 0, CapOp.setCap 50,
            CapOp.calibrate 20 1 30].foldl applyCapOp st_pos).peak_balance := by
  refine ⟨(peak_monotone_amended st_pos).2.1 5000 1 (by norm_num), ?_⟩
  refine (peak_monotone_amended st_pos).2.2.2 _ ?_
  intro op hop
  simp only [List.mem_cons, List.not_mem_nil, or_false] at hop
  rcases hop with rfl | rfl | rfl
  · trivial
  · norm_num [capOpNonneg]
  · trivial

/-- C6: in swap mode both order paths convert the coin quantity to a
contract count equal to the floor of quantity x price / contractSize (the
source truncation coincides with the floor on the non-negative domain), and
whenever that count is not positive the order is aborted: None is returned
and the whole cached state, in particular entry_price, position_open_time
and last_trade_time, is returned unchanged. -/
theorem contract_sizing_reject (st : ExchState) (env : OrderEnv)
    (side : String) (quantity current_market_price : ℚ)
    (stop_loss_price : Option ℚ) (now : ℚ)
    (hm : st.trading_mode = TMode.swap)
    (hq : 0 ≤ quantity) (hp : 0 ≤ current_market_price)
    (ht : 0 ≤ env.ticker_last) (hc : 0 < env.contract_size) :
    pyInt (quantity * current_market_price / env.contract_size)
        = ⌊quantity * current_market_price / env.contract_size⌋
    ∧ (⌊quantity * current_market_price / env.contract_size⌋ ≤ 0 →
        place_limit_order_with_stop st env side quantity current_market_price
          stop_loss_price now = (none, st))
    ∧ (⌊quantity * env.ticker_last / env.contract_size⌋ ≤ 0 →
        place_market_order st env side quantity now = (none, st)) := by
  have hn1 : 0 ≤ quantity * current_market_price / env.contract_size :=
    div_nonneg (mul_nonneg hq hp) hc.le
  have hn2 : 0 ≤ quantity * env.ticker_last / env.contract_size :=
    div_nonneg (mul_nonneg hq ht) hc.le
  have e1 : pyInt (quantity * current_market_price / env.contract_size)
      = ⌊quantity * current_market_price / env.contract_size⌋ := by
    unfold pyInt
    rw [if_pos hn1]
  have e2 : pyInt (quantity * env.ticker_last / env.contract_size)
      = ⌊quantity * env.ticker_last / env.contract_size⌋ := by
    unfold pyInt
    rw [if_pos hn2]
  refine ⟨e1, ?_, ?_⟩
  · intro hle
    have hpy : pyInt (quantity * current_market_price / env.contract_size)
        ≤ 0 := by rw [e1]; exact hle
    simp [place_limit_order_with_stop, hm, hpy]
  · intro hle
    have hpy : pyInt (quantity * env.ticker_last / env.contract_size)
        ≤ 0 := by rw [e2]; exact hle
    simp [place_market_order, hm, hpy]

/-- C6 witness: quantity 0.001, price 60000, contract size 100 gives a
notional of 60 and floor(60/100) = 0, so the limit order is rejected with
the state unchanged. -/
theorem contract_sizing_reject_witness :
    place_limit_order_with_stop st_swap env_c6 "buy" (1/1000) 60000 none 0
        = (none, st_swap)
    ∧ ⌊((1:ℚ)/1000) * 60000 / 100⌋ = 0 := by
  have hfl : ⌊((1:ℚ)/1000) * 60000 / 100⌋ = 0 := by
    rw [Int.floor_eq_zero_iff, Set.mem_Ico]
    norm_num
  refine ⟨?_, hfl⟩
  have h := (contract_sizing_reject st_swap env_c6 "buy" (1/1000) 60000
    none 0 rfl (by norm_num) (by norm_num) (by norm_num [env_c6])
    (by norm_num [env_c6])).2.1
  exact h (by rw [show env_c6.contract_size = 100 from rfl, hfl])

/-- C8: while a position is open (strictly above the 1/10000 dust bound) and
its open time is known, should_sell answers true exactly when the advisory
action is "sell", or the position has been held at least 12 hours, or the
trend score is below 25 with negative MACD - the latter two firing even when
the advisory says "hold". -/
theorem should_sell_spec (st : UiState) (now : ℚ) (indicators : Indicators)
    (action : String) (t : ℚ) (hpos : 1/10000 < st.position)
    (ht : st.position_open_time = some t) :
    ((should_sell st now indicators action).1 = true
      ↔ (action = "sell" ∨ 12 ≤ (now - t) / 3600
          ∨ (indicators.trend_score < 25 ∧ indicators.macd < 0))) := by
  unfold should_sell
  rw [if_neg (not_le.mpr hpos), ht]
  by_cases ha : action = "sell"
  · simp [ha]
  · simp only [if_neg ha]
    by_cases h12 : 12 ≤ (now - t) / 3600
    · simp [h12, ha]
    · by_cases htb : indicators.trend_score < 25 ∧ indicators.macd < 0
      · simp [h12, htb, ha]
      · simp [h12, htb, ha]

/-- C8 witness: a position held 12.5 hours with advisory "hold" and trend
score 40 still triggers a sell through the time stop. -/
theorem should_sell_spec_witness :
    (should_sell ui_c8 45000 ind_hold "hold").1 = true :=
  (should_sell_spec ui_c8 45000 ind_hold "hold" 0
      (by norm_num [ui_c8, ui_c9]) rfl).mpr
    (Or.inr (Or.inl (by norm_num)))

/-- C9 counterexample: with free balance 5 (below the 10-unit floor) and a
held position worth 100 (above the 10-unit bound), an advisory "buy" still
places an order - the sell-policy override liquidates the position - so the
buy-blocking conditions do not imply that no order is placed. -/
theorem buy_block_places_sell_counterexample :
    execute_trade rc0 ui_c9 50000 "buy" ind_hold 50
        = TradeEffect.sellOrder 1 100
    ∧ ui_c9.balance ≤ 10
    ∧ 10 < ui_c9.position * ui_c9.current_price := by
  have h1 : (("buy" : String) = "sell") = False := by
    simp only [eq_iff_iff, iff_false]
    decide
  refine ⟨?_, by norm_num [ui_c9], by norm_num [ui_c9]⟩
  norm_num [execute_trade, check_trade_permission, should_sell, rc0, ui_c9,
    ind_hold, h1]

/-- Characterization of the states in which execute_trade turns an advisory
"buy" into a buy order, and of the order it then produces. -/
theorem execute_trade_buy_char (rc : RiskController) (st : UiState) (now : ℚ)
    (indicators : Indicators) (ai_position : ℚ) (q p s : ℚ)
    (heq : execute_trade rc st now "buy" indicators ai_position
        = TradeEffect.buyOrder q p s) :
    10 < st.balance
    ∧ ¬ (now - st.last_sell_ts < COOLING_OFF_MINUTES * 60)
    ∧ ¬ (10 < st.position * st.current_price)
    ∧ q = (if st.trading_mode = TMode.swap then st.balance * st.leverage
           else st.balance)
          * max (2/10) (min (95/100) (ai_position / 100))
          / st.current_price
    ∧ p = st.current_price
    ∧ s = calculate_stop_loss rc st.current_price := by
  unfold execute_trade at heq
  by_cases h1 : (check_trade_permission rc
      (st.balance + st.position * st.current_price)
      st.initial_capital "buy").1 = false
  · rw [if_pos h1] at heq
    exact TradeEffect.noConfusion heq
  · rw [if_neg h1] at heq
    by_cases h2 : (should_sell st now indicators "buy").1 = true
        ∧ 1/10000 < st.position
    · rw [if_pos h2] at heq
      exact TradeEffect.noConfusion heq
    · rw [if_neg h2] at heq
      by_cases h3 : ("buy" : String) = "buy" ∧ 10 < st.balance
      · rw [if_pos h3] at heq
        by_cases h4 : now - st.last_sell_ts < COOLING_OFF_MINUTES * 60
        · rw [if_pos h4] at heq
          exact TradeEffect.noConfusion heq
        · rw [if_neg h4] at heq
          by_cases h5 : 10 < st.position * st.current_price
          · rw [if_pos h5] at heq
            exact TradeEffect.noConfusion heq
          · rw [if_neg h5] at heq
            injection heq with hq2 hp2 hs2
            exact ⟨h3.2, h4, h5, hq2.symm, hp2.symm, hs2.symm⟩
      · rw [if_neg h3] at heq
        exact TradeEffect.noConfusion heq

/-- C9 (amended): an advisory "buy" never yields a buy order when the free
balance is at most 10, or the cooling-off window (30 minutes from the last
sell) is still open, or the held position is worth more than 10 - although
the sell-policy override may still place a sell order in those states; the
cooling-off window also fails the decision-eligibility gate; and any buy
order that is produced uses the advisory ratio clamped to [0.2, 0.95] of the
buying power (balance times leverage in swap mode, balance in spot mode). -/
theorem buy_policy_amended (rc : RiskController) (st : UiState) (now : ℚ)
    (indicators : Indicators) (ai_position : ℚ) :
    ((st.balance ≤ 10 ∨ now - st.last_sell_ts < COOLING_OFF_MINUTES * 60
        ∨ 10 < st.position * st.current_price) →
      ∀ q p s, execute_trade rc st now "buy" indicators ai_position
          ≠ TradeEffect.buyOrder q p s)
    ∧ (now - st.last_sell_ts < COOLING_OFF_MINUTES * 60 →
        can_make_decision st now = false)
    ∧ (∀ q p s, execute_trade rc st now "buy" indicators ai_position
          = TradeEffect.buyOrder q p s →
        q = (if st.trading_mode = TMode.swap then st.balance * st.leverage
             else st.balance)
            * max (2/10) (min (95/100) (ai_position / 100))
            / st.current_price
        ∧ p = st.current_price
        ∧ s = calculate_stop_loss rc st.current_price
        ∧ (2/10 : ℚ) ≤ max (2/10) (min (95/100) (ai_position / 100))
        ∧ max (2/10) (min (95/100) (ai_position / 100)) ≤ 95/100) := by
  refine ⟨?_, ?_, ?_⟩
  · intro hblock q p s heq
    obtain ⟨hbal, hcool, hworth, -, -, -⟩ :=
      execute_trade_buy_char rc st now indicators ai_position q p s heq
    rcases hblock with hb | hb | hb
    · exact absurd hbal (not_lt.mpr hb)
    · exact hcool hb
    · exact hworth hb
  · intro h
    unfold can_make_decision
    by_cases hp : st.current_price ≤ 0
    · simp [hp]
    · simp [hp, h]
  · intro q p s heq
    obtain ⟨-, -, -, hq2, hp2, hs2⟩ :=
      execute_trade_buy_char rc st now indicators ai_position q p s heq
    exact ⟨hq2, hp2, hs2, le_max_left _ _,
      max_le (by norm_num) (min_le_left _ _)⟩

/-- C9 witness: the amended theorem applied to the small-balance state (no
buy order possible) and to a cooling-off instant (decision gate closed). -/
theorem buy_policy_amended_witness :
    (∀ q p s, execute_trade rc0 ui_c9 50000 "buy" ind_hold 50
        ≠ TradeEffect.buyOrder q p s)
    ∧ can_make_decision ui_c9 100 = false :=
  ⟨(buy_policy_amended rc0 ui_c9 50000 ind_hold 50).1
      (Or.inl (by norm_num [ui_c9])),
   (buy_policy_amended rc0 ui_c9 100 ind_hold 50).2.1
      (by norm_num [ui_c9, COOLING_OFF_MINUTES])⟩

/-- C10 counterexample: with the balance query succeeding and the positions
query raising, get_account does not return the all-zero snapshot: the
exception is swallowed by the inner handler, the position is zeroed, and the
cached fields - in particular initial_capital 500 - are served from memory. -/
theorem get_account_inner_exception_counterexample :
    env_c10.fetch_positions = none
    ∧ get_account st_c10 env_c10
        = { balance := 100, position := 0, entry_price := 7,
            peak_balance := 900, initial_capital := 500,
            position_open_time := some 0, last_trade_time := 3 }
    ∧ (get_account st_c10 env_c10).initial_capital ≠ 0 := by
  refine ⟨rfl, rfl, ?_⟩
  have h : (get_account st_c10 env_c10).initial_capital = 500 := rfl
  rw [h]
  norm_num

/-- C10 (amended): an exception reaching the outer handlers of get_account -
in particular any failure of the balance query - yields the all-zero
snapshot (balance 0, position 0, entry_price 0, peak_balance 0,
initial_capital 0, position_open_time none, last_trade_time 0) while the
cached in-memory fields are untouched (the method never writes them); but an
exception confined to the positions query is swallowed: the snapshot then
carries position 0 with balance from the exchange and all cached fields from
memory. -/
theorem get_account_failure_amended (st : ExchState) (env : AcctEnv) :
    (env.fetch_balance = none → get_account st env = zero_snapshot)
    ∧ (∀ (balance_info : String → ℚ × ℚ) (quote_coin : String),
        env.fetch_balance = some balance_info →
        (coin_parts st.symbol).2 = some quote_coin →
        st.trading_mode = TMode.swap →
        env.fetch_positions = none →
          get_account st env
            = { balance := (balance_info quote_coin).1, position := 0,
                entry_price := st.entry_price,
                peak_balance := st.peak_balance,
                initial_capital := st.initial_capital,
                position_open_time := st.position_open_time,
                last_trade_time := st.last_trade_time }) := by
  constructor
  · intro h
    unfold get_account
    rw [h]
  · intro balance_info quote_coin hb hq hm hp
    unfold get_account
    rw [hb, hq, hm, hp]
    simp

/-- C10 witness: the amended theorem applied to a failing balance query and
to a failing positions query on a state with cached initial capital 500. -/
theorem get_account_failure_amended_witness :
    get_account st_c10 env_net_down = zero_snapshot
    ∧ (get_account st_c10 env_c10).initial_capital = 500 := by
  refine ⟨(get_account_failure_amended st_c10 env_net_down).1 rfl, ?_⟩
  have h := (get_account_failure_amended st_c10 env_c10).2
    (fun _ => ((100 : ℚ), (2 : ℚ))) "USDT" rfl rfl rfl rfl
  rw [h]
  rfl
